import Mathlib

/-!
Verification development for the PyLag offline Lagrangian particle-tracking
engine.  The definitions below are a shallow embedding of the Cython/C++
sources: `pylag/particle` (ParticleSmartPtr), `pylag/interpolation.pyx`,
`pylag/model.pyx` (FVCOMOPTModel) and the FVCOMDataReader module.  Machine
floats are embedded as exact rationals; C ints as `Int`.  External
collaborators that are not part of the sources (the unstructured-grid search
routines, the mediator, the boundary-condition calculators, the numerical
integrators and random-walk models) appear as function-valued parameters, so
theorems quantifying over them cover every behaviour of those collaborators.
-/

namespace PyLag

/-- Host-element search flags, from constants.pxi (not shipped in the
sources; the numeric values are pinned by the literal comparisons
`flag == 0`, `flag == -1`, `flag == -2` in FVCOMOPTModel.update). -/
def IN_DOMAIN : Int := 0

/-- Land-boundary-crossed flag (literal -1 in FVCOMOPTModel.update). -/
def LAND_BDY_CROSSED : Int := -1

/-- Open-boundary-crossed flag (literal -2 in FVCOMOPTModel.update). -/
def OPEN_BDY_CROSSED : Int := -2

/-- Particle record, after the C++ Particle class (particle.h) and the
fields initialised by ParticleSmartPtr.__cinit__.  `xpos`/`ypos`/`zpos`
correspond to x1/x2/x3 of the C++ class.  `host_z_layer` is the extra field
written by FVCOMOPTModel (model.pyx). -/
structure Particle where
  group_id : Int
  xpos : ℚ
  ypos : ℚ
  zpos : ℚ
  phi1 : ℚ
  phi2 : ℚ
  phi3 : ℚ
  omega_interfaces : ℚ
  omega_layers : ℚ
  in_domain : Bool
  is_beached : Int
  host_horizontal_elem : Int
  k_layer : Int
  in_vertical_boundary_layer : Bool
  k_lower_layer : Int
  k_upper_layer : Int
  host_z_layer : Int
deriving DecidableEq, Repr

/-- Default argument values of ParticleSmartPtr.__cinit__: every numeric
field is the sentinel -999, `in_domain` is False, `is_beached` is 0.
`host_z_layer` is not touched by the constructor; it gets the same sentinel. -/
def defaultParticle : Particle :=
  { group_id := -999, xpos := -999, ypos := -999, zpos := -999,
    phi1 := -999, phi2 := -999, phi3 := -999,
    omega_interfaces := -999, omega_layers := -999,
    in_domain := false, is_beached := 0, host_horizontal_elem := -999,
    k_layer := -999, in_vertical_boundary_layer := false,
    k_lower_layer := -999, k_upper_layer := -999, host_z_layer := -999 }

/-- The Delta displacement accumulator (pylag/delta). -/
structure Delta where
  x : ℚ
  y : ℚ
  z : ℚ
deriving DecidableEq, Repr

/-- reset(&delta) zeroes all three components. -/
def resetDelta : Delta := { x := 0, y := 0, z := 0 }

/-- Write a barycetric-coordinate triple into a particle; this is the only
state touched by UnstructuredGrid.set_local_coordinates (spec 4.B). -/
def setPhi (p : Particle) (phi : ℚ × ℚ × ℚ) : Particle :=
  { p with phi1 := phi.1, phi2 := phi.2.1, phi3 := phi.2.2 }

/-- The vertical-grid fields mutated by
FVCOMDataReader.set_vertical_grid_vars (and no others). -/
structure VertGridVars where
  k_layer : Int
  omega_interfaces : ℚ
  omega_layers : ℚ
  in_vertical_boundary_layer : Bool
  k_lower_layer : Int
  k_upper_layer : Int
deriving DecidableEq, Repr

/-- Apply a vertical-grid update to a particle. -/
def applyVertGrid (p : Particle) (v : VertGridVars) : Particle :=
  { p with k_layer := v.k_layer, omega_interfaces := v.omega_interfaces,
           omega_layers := v.omega_layers,
           in_vertical_boundary_layer := v.in_vertical_boundary_layer,
           k_lower_layer := v.k_lower_layer, k_upper_layer := v.k_upper_layer }

/-! ## Interpolation primitives (pylag/interpolation.pyx) -/

/-- Determinant of the barycentric transformation matrix for a triangle,
exactly as computed in get_barycentric_coords. -/
def baryDet (x_tri y_tri : Fin 3 → ℚ) : ℚ :=
  let a11 := y_tri 2 - y_tri 0
  let a12 := x_tri 0 - x_tri 2
  let a21 := y_tri 0 - y_tri 1
  let a22 := x_tri 1 - x_tri 0
  a11 * a22 - a12 * a21

/-- get_barycentric_coords from pylag/interpolation.pyx: computes
phi[0], phi[1] by the 2x2 inverse transform and sets
phi[2] = 1 - phi[0] - phi[1]. -/
def get_barycentric_coords (x y : ℚ) (x_tri y_tri : Fin 3 → ℚ) : ℚ × ℚ × ℚ :=
  let a11 := y_tri 2 - y_tri 0
  let a12 := x_tri 0 - x_tri 2
  let a21 := y_tri 0 - y_tri 1
  let a22 := x_tri 1 - x_tri 0
  let det := a11 * a22 - a12 * a21
  let phi0 := (a11 * (x - x_tri 0) + a12 * (y - y_tri 0)) / det
  let phi1 := (a21 * (x - x_tri 0) + a22 * (y - y_tri 0)) / det
  (phi0, phi1, 1 - phi0 - phi1)

/-- Loop body of shephard_interpolation (pylag/interpolation.pyx).  The
source computes r = get_euclidian_distance(...) and tests `r == 0.0`
before weighting by w = 1/(r*r); over exact arithmetic r = 0 iff r^2 = 0
and 1/(r*r) = 1/r2, so the loop is embedded directly on the squared
distance r2.  `sum` accumulates the weights, `sumw` the weighted values;
when the fuel (remaining points) runs out the source returns sumw/sum. -/
def shephardLoop (x y : ℚ) (xpts ypts vals : Nat → ℚ) :
    Nat → Nat → ℚ → ℚ → ℚ
  | 0, _, sum, sumw => sumw / sum
  | n + 1, i, sum, sumw =>
    let r2 := (x - xpts i) ^ 2 + (y - ypts i) ^ 2
    if r2 = 0 then vals i
    else shephardLoop x y xpts ypts vals n (i + 1) (sum + 1 / r2) (sumw + vals i / r2)

/-- shephard_interpolation from pylag/interpolation.pyx: inverse-distance
squared (p = 2) Shepard interpolation over the first `npts` reference
points, with an early return of vals[i] when the distance to point i is
exactly zero. -/
def shephard_interpolation (x y : ℚ) (npts : Nat) (xpts ypts vals : Nat → ℚ) : ℚ :=
  shephardLoop x y xpts ypts vals npts 0 0 0

/-- Squared distance from (x, y) to reference point i, the quantity whose
vanishing triggers the early return in shephard_interpolation. -/
def refDistSq (x y : ℚ) (xpts ypts : Nat → ℚ) (i : Nat) : ℚ :=
  (x - xpts i) ^ 2 + (y - ypts i) ^ 2

/-- Modelled from the spec: linearFraction(t, t_a, t_b) = (t - t_a)/(t_b - t_a)
(spec 4.D); the Cython get_linear_fraction is not among the sources. -/
def get_linear_fraction (t a b : ℚ) : ℚ := (t - a) / (b - a)

/-- Modelled from the spec: the safe variant of linearFraction clamps the
result to [0, 1] (spec 4.D); get_linear_fraction_safe is not among the
sources. -/
def get_linear_fraction_safe (t a b : ℚ) : ℚ :=
  let f := (t - a) / (b - a)
  if f < 0 then 0 else if 1 < f then 1 else f

/-- Modelled from the spec: linearInterp(tau, a, b) = a + tau * (b - a)
(spec 4.D); the Cython linear_interp is not among the sources. -/
def linear_interp (tf a b : ℚ) : ℚ := a + tf * (b - a)

/-- Modelled from the spec: barycentricInElement(vals, phi) = sum of
vals_i * phi_i (spec 4.D); the Cython interpolate_within_element is not
among the sources. -/
def interpolate_within_element (vals phi : Fin 3 → ℚ) : ℚ :=
  vals 0 * phi 0 + vals 1 * phi 1 + vals 2 * phi 2

/-- Modelled from the spec: the list-valued shepard_interpolation called by
FVCOMDataReader._get_velocity_using_shepard_interpolation is not among the
sources.  Following spec 4.D and the in-source shephard_interpolation it
walks every supplied reference point (x_i, y_i, v_i), returns v_i directly
when the distance to point i vanishes, and otherwise accumulates weights
w_i = 1/r_i^2, returning (sum of w_i * v_i) / (sum of w_i). -/
def shepardList (x y : ℚ) : List (ℚ × ℚ × ℚ) → ℚ → ℚ → ℚ
  | [], sum, sumw => sumw / sum
  | (xi, yi, vi) :: rest, sum, sumw =>
    let r2 := (x - xi) ^ 2 + (y - yi) ^ 2
    if r2 = 0 then vi
    else shepardList x y rest (sum + 1 / r2) (sumw + vi / r2)

/-- Modelled from the spec: entry point of the list-valued Shepard
interpolation (see shepardList). -/
def shepard_interpolation (x y : ℚ) (pts : List (ℚ × ℚ × ℚ)) : ℚ :=
  shepardList x y pts 0 0

/-! ## FVCOMDataReader.find_host (two-phase host search) -/

/-- FVCOMDataReader.find_host, instrumented with a Bool recording whether
the pathline-tracing fallback ran.  The two grid search routines
(UnstructuredGrid.find_host_using_local_search and
find_host_using_particle_tracing) live outside the sources and enter as
function parameters; each returns its flag together with the particle it may
have mutated (both set the host element on the new particle).  The body
mirrors the source exactly: run the local search from the old particle's
host, and run particle tracing if and only if the local flag is not
IN_DOMAIN, returning the tracing flag in that case and the local flag
otherwise. -/
def find_host_FVCOM
    (localSearch : Particle → Int → Int × Particle)
    (tracing : Particle → Particle → Int × Particle)
    (particle_old particle_new : Particle) : Int × Particle × Bool :=
  let r1 := localSearch particle_new particle_old.host_horizontal_elem
  if r1.1 ≠ IN_DOMAIN then
    let r2 := tracing particle_old r1.2
    (r2.1, r2.2, true)
  else
    (r1.1, r1.2, false)

/-! ## FVCOMDataReader.read_data -/

/-- Time bracket state of the FVCOMDataReader: the two frame times, the
time direction, and the loaded time-dependent fields (abstracted as a value
of an arbitrary type, since only identity vs. replacement is at issue). -/
structure ReaderState (F : Type) where
  time_last : ℚ
  time_next : ℚ
  time_direction : Int
  frames : F
deriving Repr

/-- FVCOMDataReader.read_data.  The mediator-plus-_read_time_dependent_vars
refill is abstracted as a function from the requested time to the new
(time_last, time_next, frames) triple.  The source computes
time_fraction = get_linear_fraction(time, time_last, time_next) and, when
time_direction == 1, refills iff time_fraction < 0 or time_fraction >= 1;
otherwise it refills iff time_fraction <= 0 or time_fraction > 1.  The
returned Bool records whether update_reading_frames was invoked. -/
def read_data {F : Type} (mediator : ℚ → ℚ × ℚ × F)
    (s : ReaderState F) (time : ℚ) : ReaderState F × Bool :=
  let time_fraction := get_linear_fraction time s.time_last s.time_next
  let trigger : Bool :=
    if s.time_direction = 1 then
      decide (time_fraction < 0 ∨ 1 ≤ time_fraction)
    else
      decide (time_fraction ≤ 0 ∨ 1 < time_fraction)
  if trigger then
    let m := mediator time
    ({ s with time_last := m.1, time_next := m.2.1, frames := m.2.2 }, true)
  else
    (s, false)

/-! ## FVCOMDataReader.is_wet -/

/-- The state consulted by FVCOMDataReader.is_wet: the has_is_wet
configuration flag and the wet_cells arrays of the two bracket frames
(memoryviews embedded as functions from element index to 0/1 value). -/
structure WetState where
  has_is_wet : Bool
  wet_cells_last : Int → Int
  wet_cells_next : Int → Int

/-- FVCOMDataReader.is_wet: reads the particle's host element; when
has_is_wet holds and either bracket frame marks that element 0 (dry) the
result is 0, otherwise 1.  The time argument is received but never read,
exactly as in the source. -/
def is_wet (s : WetState) (time : ℚ) (particle : Particle) : Int :=
  let host_element := particle.host_horizontal_elem
  if s.has_is_wet then
    if s.wet_cells_last host_element = 0 ∨ s.wet_cells_next host_element = 0 then 0
    else 1
  else 1

/-! ## FVCOMDataReader._get_velocity_using_shepard_interpolation -/

/-- The grid and frame data consulted by the Shepard velocity
interpolation: element-centre coordinates, the nbe adjacency (first index
0..2, second the element), the u/v/w fields of both bracket frames indexed
by (sigma layer, element), and the two frame times. -/
structure VelGrid where
  xc : Int → ℚ
  yc : Int → ℚ
  nbe : Nat → Int → Int
  u_last : Int → Int → ℚ
  u_next : Int → Int → ℚ
  v_last : Int → Int → ℚ
  v_next : Int → Int → ℚ
  w_last : Int → Int → ℚ
  w_next : Int → Int → ℚ
  time_last : ℚ
  time_next : ℚ

/-- The four-entry reference-point vectors built by
_get_velocity_using_shepard_interpolation: xc/yc/vals are initialised to
the sentinel -999 in all four slots; slot 0 always receives the host
centre, and slot i+1 (i = 0, 1, 2) is overwritten with neighbour data iff
nbe[i, host] >= 0.  Entries for missing neighbours therefore keep
coordinates (-999, -999) and value -999. -/
def shepardPoints (g : VelGrid) (host : Int) (value : Int → ℚ) :
    List (ℚ × ℚ × ℚ) :=
  (g.xc host, g.yc host, value host) ::
    (List.range 3).map (fun i =>
      let neighbour := g.nbe i host
      if 0 ≤ neighbour then (g.xc neighbour, g.yc neighbour, value neighbour)
      else (-999, -999, -999))

/-- Time-interpolated field value at one element on one sigma layer, as
computed pointwise in _get_velocity_using_shepard_interpolation. -/
def layerValue (tf : ℚ) (last next : Int → Int → ℚ) (k e : Int) : ℚ :=
  linear_interp tf (last k e) (next k e)

/-- FVCOMDataReader._get_velocity_using_shepard_interpolation.  In the
vertical-boundary-layer case each component is a single Shepard
interpolation on the particle's k_layer; otherwise components are Shepard
interpolated on the lower and upper bounding layers and blended with
omega_layers via linear_interp.  The time fraction uses the safe
(clamped) linear fraction, as in the source. -/
def get_velocity_shepard (g : VelGrid) (time : ℚ) (p : Particle) :
    ℚ × ℚ × ℚ :=
  let tf := get_linear_fraction_safe time g.time_last g.time_next
  let host := p.host_horizontal_elem
  if p.in_vertical_boundary_layer then
    let k := p.k_layer
    (shepard_interpolation p.xpos p.ypos
        (shepardPoints g host (layerValue tf g.u_last g.u_next k)),
     shepard_interpolation p.xpos p.ypos
        (shepardPoints g host (layerValue tf g.v_last g.v_next k)),
     shepard_interpolation p.xpos p.ypos
        (shepardPoints g host (layerValue tf g.w_last g.w_next k)))
  else
    let kl := p.k_lower_layer
    let ku := p.k_upper_layer
    let up1 := shepard_interpolation p.xpos p.ypos
        (shepardPoints g host (layerValue tf g.u_last g.u_next kl))
    let vp1 := shepard_interpolation p.xpos p.ypos
        (shepardPoints g host (layerValue tf g.v_last g.v_next kl))
    let wp1 := shepard_interpolation p.xpos p.ypos
        (shepardPoints g host (layerValue tf g.w_last g.w_next kl))
    let up2 := shepard_interpolation p.xpos p.ypos
        (shepardPoints g host (layerValue tf g.u_last g.u_next ku))
    let vp2 := shepard_interpolation p.xpos p.ypos
        (shepardPoints g host (layerValue tf g.v_last g.v_next ku))
    let wp2 := shepard_interpolation p.xpos p.ypos
        (shepardPoints g host (layerValue tf g.w_last g.w_next ku))
    (linear_interp p.omega_layers up1 up2,
     linear_interp p.omega_layers vp1 vp2,
     linear_interp p.omega_layers wp1 wp2)

/-- Modelled from the spec: the reference-point set the spec (4.D) and the
source docstring prescribe for the Shepard velocity average, namely the
host centre plus only the valid neighbour centres (those with
nbe[i, host] >= 0), with no sentinel padding. -/
def shepardPointsValid (g : VelGrid) (host : Int) (value : Int → ℚ) :
    List (ℚ × ℚ × ℚ) :=
  (g.xc host, g.yc host, value host) ::
    ((List.range 3).filterMap (fun i =>
      let neighbour := g.nbe i host
      if 0 ≤ neighbour then some (g.xc neighbour, g.yc neighbour, value neighbour)
      else none))

/-! ## FVCOMOPTModel (model.pyx): seeding and the per-step update -/

/-- The SIMULATION.depth_coordinates configuration value consumed by
_create_seed; the source compares the string against two values with no
else branch, so anything else leaves zpos at its constructor default. -/
inductive DepthCoordinates
  | cartesian
  | sigma
  | unspecified
deriving DecidableEq, Repr

/-- Collaborators of FVCOMOPTModel, none of which is part of the sources:
the numerical integrator and the two random-walk models (each optional, as
in the source's None checks), the DataReader search and interpolation
entry points, and the two boundary-condition calculators.  Quantifying
over a ModelEnv quantifies over every behaviour of these collaborators.
findHost takes (xpos_old, ypos_old, xpos_new, ypos_new, guess) and returns
(flag, host); horizBC takes (xpos_old, ypos_old, xpos_new, ypos_new, host)
and returns the reflected (xpos_new, ypos_new); setLocalCoordinates
returns the recomputed barycentric triple; setVerticalGridVars returns the
source function's flag together with the vertical-grid fields it sets;
vertBC maps (zpos, zmin, zmax) to the corrected zpos. -/
structure ModelEnv where
  numIntegrator : Option (ℚ → Particle → Delta → Int × Delta)
  vertRandWalk : Option (ℚ → Particle → Delta → Delta)
  horizRandWalk : Option (ℚ → Particle → Delta → Delta)
  findHost : ℚ → ℚ → ℚ → ℚ → Int → Int × Int
  horizBC : ℚ → ℚ → ℚ → ℚ → Int → ℚ × ℚ
  setLocalCoordinates : Particle → ℚ × ℚ × ℚ
  getZmin : ℚ → Particle → ℚ
  getZmax : ℚ → Particle → ℚ
  vertBC : ℚ → ℚ → ℚ → ℚ
  setVerticalGridVars : ℚ → Particle → Int × VertGridVars
  findHostLocal : ℚ → ℚ → Int → Int × Int
  findHostGlobal : ℚ → ℚ → Int
  sigmaToCartesian : ℚ → ℚ → ℚ → ℚ
  depthCoordinates : DepthCoordinates
  timeStep : ℚ

/-- One round of the land-boundary loop body in FVCOMOPTModel.update: apply
the horizontal boundary condition to the proposed position using the host
returned by the previous find_host, then re-run find_host with the
particle's (uncommitted) old position and original host as the guess.  The
state is (flag, host, xpos_new, ypos_new). -/
def landStep (env : ModelEnv) (p : Particle) (s : Int × Int × ℚ × ℚ) :
    Int × Int × ℚ × ℚ :=
  let xy := env.horizBC p.xpos p.ypos s.2.2.1 s.2.2.2 s.2.1
  let fh := env.findHost p.xpos p.ypos xy.1 xy.2 p.host_horizontal_elem
  (fh.1, fh.2, xy.1, xy.2)

/-- The land-boundary loop `while flag == -1` of FVCOMOPTModel.update,
indexed by fuel: `none` means the loop did not exit within the given
number of rounds (the source has no iteration cap, so an infinite loop is
modelled as `none` for every fuel value). -/
def landLoopFuel (env : ModelEnv) (p : Particle) :
    Nat → Int × Int × ℚ × ℚ → Option (Int × Int × ℚ × ℚ)
  | 0, s => if s.1 ≠ LAND_BDY_CROSSED then some s else none
  | n + 1, s =>
    if s.1 ≠ LAND_BDY_CROSSED then some s
    else landLoopFuel env p n (landStep env p s)

/-- Outcome of one particle's pass through FVCOMOPTModel.update. -/
inductive StepResult
  | ok (p : Particle)
  | fatalError
  | noFuel
deriving DecidableEq, Repr

/-- Continuation of FVCOMOPTModel.update after the advection stage: add
the optional random-walk contributions to the delta, propose the new
position, classify it with find_host, run the land-boundary loop, flag the
particle out of the domain on an open-boundary crossing, and on flag 0
commit the position, recompute local coordinates, apply the vertical
boundary condition against zmin/zmax at time + time_step, and recompute
the vertical grid variables.  Any other final flag raises (fatalError). -/
def updateAfterAdvect (env : ModelEnv) (fuel : Nat) (time : ℚ)
    (p : Particle) (delta1 : Delta) : StepResult :=
  let delta2 := match env.vertRandWalk with
    | some rw => rw time p delta1
    | none => delta1
  let delta3 := match env.horizRandWalk with
    | some rw => rw time p delta2
    | none => delta2
  let xpos := p.xpos + delta3.x
  let ypos := p.ypos + delta3.y
  let zpos := p.zpos + delta3.z
  let fh := env.findHost p.xpos p.ypos xpos ypos p.host_horizontal_elem
  match landLoopFuel env p fuel (fh.1, fh.2, xpos, ypos) with
  | none => StepResult.noFuel
  | some s =>
    if s.1 = OPEN_BDY_CROSSED then
      StepResult.ok { p with in_domain := false }
    else if s.1 = IN_DOMAIN then
      let p1 := { p with xpos := s.2.2.1, ypos := s.2.2.2, zpos := zpos, host_horizontal_elem := s.2.1 }
      let p2 := setPhi p1 (env.setLocalCoordinates p1)
      let zmin := env.getZmin (time + env.timeStep) p2
      let zmax := env.getZmax (time + env.timeStep) p2
      let p3 := if p2.zpos < zmin ∨ zmax < p2.zpos then
                  { p2 with zpos := env.vertBC p2.zpos zmin zmax }
                else p2
      let vg := env.setVerticalGridVars (time + env.timeStep) p3
      let p4 := applyVertGrid p3 vg.2
      StepResult.ok { p4 with host_z_layer := vg.1 }
    else
      StepResult.fatalError

/-- One particle's pass through FVCOMOPTModel.update: particles outside
the domain are skipped unchanged; otherwise the delta is reset, the
optional integrator runs, and a host_err of -2 flags the particle out of
the domain and abandons the step without committing any displacement. -/
def updateParticle (env : ModelEnv) (fuel : Nat) (time : ℚ)
    (p : Particle) : StepResult :=
  if p.in_domain then
    match env.numIntegrator with
    | some advect =>
      let r := advect time p resetDelta
      if r.1 = -2 then StepResult.ok { p with in_domain := false }
      else updateAfterAdvect env fuel time p r.2
    | none => updateAfterAdvect env fuel time p resetDelta
  else
    StepResult.ok p

/-! ## FVCOMOPTModel._create_seed -/

/-- Outcome of processing one seed tuple in _create_seed: either a
particle appended to the seed list, or one of the two ValueError raises,
each carrying the offending depth and the violated bound exactly as the
exception message reports them. -/
inductive SeedOutcome
  | ok (p : Particle)
  | belowFloor (zpos zmin : ℚ)
  | aboveSurface (zpos zmax : ℚ)
deriving DecidableEq, Repr

/-- Whether a seed outcome is one of the two ValueError raises. -/
def SeedOutcome.isError : SeedOutcome → Bool
  | SeedOutcome.ok _ => false
  | _ => true

/-- The host search performed per seed tuple in _create_seed: with a guess
from the previous particle, try the local search first and fall back to
the global search when its flag is negative; with no guess, go straight to
the global search. -/
def seedHostSearch (env : ModelEnv) (x y : ℚ) (guess : Option Int) : Int :=
  match guess with
  | some g =>
    let r := env.findHostLocal x y g
    if r.1 < 0 then env.findHostGlobal x y else r.2
  | none => env.findHostGlobal x y

/-- The particle built for an in-domain seed position before the depth is
assigned: the ParticleSmartPtr constructor call with group_id, xpos, ypos,
host and in_domain=True, followed by set_local_coordinates. -/
def seedHostParticle (env : ModelEnv) (group : Int) (x y : ℚ)
    (host : Int) : Particle :=
  let p0 := { defaultParticle with group_id := group, xpos := x, ypos := y, host_horizontal_elem := host, in_domain := true }
  setPhi p0 (env.setLocalCoordinates p0)

/-- The depth assignment of _create_seed: under cartesian depth
coordinates zpos becomes z_temp + zmax; under sigma coordinates it becomes
sigma_to_cartesian_coords(z_temp, zmin, zmax); any other configuration
value matches neither branch and leaves zpos untouched. -/
def seedSetDepth (env : ModelEnv) (z_temp zmin zmax : ℚ)
    (p : Particle) : Particle :=
  match env.depthCoordinates with
  | DepthCoordinates.cartesian => { p with zpos := z_temp + zmax }
  | DepthCoordinates.sigma => { p with zpos := env.sigmaToCartesian z_temp zmin zmax }
  | DepthCoordinates.unspecified => p

/-- The local variable p1 of the in-domain branch of _create_seed: the
freshly constructed particle for the found host, with its barycentric
coordinates set. -/
def seedParticleBeforeDepth (env : ModelEnv) (group : Int) (x y : ℚ)
    (guess : Option Int) : Particle :=
  seedHostParticle env group x y (seedHostSearch env x y guess)

/-- The local variable zmin of _create_seed for the given seed tuple. -/
def seedZmin (env : ModelEnv) (time : ℚ) (group : Int) (x y : ℚ)
    (guess : Option Int) : ℚ :=
  env.getZmin time (seedParticleBeforeDepth env group x y guess)

/-- The local variable zmax of _create_seed for the given seed tuple. -/
def seedZmax (env : ModelEnv) (time : ℚ) (group : Int) (x y : ℚ)
    (guess : Option Int) : ℚ :=
  env.getZmax time (seedParticleBeforeDepth env group x y guess)

/-- The particle of the in-domain branch of _create_seed after the depth
assignment, i.e. just before the depth validity check. -/
def seedParticleWithDepth (env : ModelEnv) (time : ℚ) (group : Int)
    (x y z_temp : ℚ) (guess : Option Int) : Particle :=
  seedSetDepth env z_temp (seedZmin env time group x y guess)
    (seedZmax env time group x y guess)
    (seedParticleBeforeDepth env group x y guess)

/-- The particle that _create_seed builds when the host search fails: all
constructor defaults except the group id, with in_domain False. -/
def outOfDomainSeed (group : Int) : Particle :=
  { defaultParticle with group_id := group, in_domain := false }

/-- Processing of one seed tuple (group, x, y, z_temp) by
FVCOMOPTModel._create_seed.  When the host search fails (host < 0) the
particle is created from constructor defaults with only group_id and
in_domain=False supplied, and no error is raised.  When a host is found,
the particle is built, its depth set, and a ValueError raised when the
depth is strictly below zmin or strictly above zmax; otherwise
set_vertical_grid_vars runs and the particle joins the seed. -/
def createSeedOne (env : ModelEnv) (time : ℚ) (group : Int)
    (x y z_temp : ℚ) (guess : Option Int) : SeedOutcome :=
  if 0 ≤ seedHostSearch env x y guess then
    let p2 := seedParticleWithDepth env time group x y z_temp guess
    let zmin := seedZmin env time group x y guess
    let zmax := seedZmax env time group x y guess
    if p2.zpos < zmin then SeedOutcome.belowFloor p2.zpos zmin
    else if zmax < p2.zpos then SeedOutcome.aboveSurface p2.zpos zmax
    else
      let vg := env.setVerticalGridVars time p2
      let p3 := applyVertGrid p2 vg.2
      SeedOutcome.ok { p3 with host_z_layer := vg.1 }
  else
    SeedOutcome.ok (outOfDomainSeed group)

/-! ## Concrete fixtures used to instantiate the general theorems -/

/-- A benign concrete environment: no integrator or random walks, find_host
always classifying IN_DOMAIN in element 0, identity boundary conditions,
water column from -10 to 0, cartesian depth coordinates. -/
def baseEnv : ModelEnv :=
  { numIntegrator := none,
    vertRandWalk := none,
    horizRandWalk := none,
    findHost := fun _ _ _ _ _ => (0, 0),
    horizBC := fun _ _ xn yn _ => (xn, yn),
    setLocalCoordinates := fun _ => (1, 0, 0),
    getZmin := fun _ _ => -10,
    getZmax := fun _ _ => 0,
    vertBC := fun z _ _ => z,
    setVerticalGridVars := fun _ _ =>
      (0, { k_layer := 0, omega_interfaces := 0, omega_layers := 0,
            in_vertical_boundary_layer := false, k_lower_layer := 0,
            k_upper_layer := 1 }),
    findHostLocal := fun _ _ _ => (0, 3),
    findHostGlobal := fun _ _ => 4,
    sigmaToCartesian := fun s zmin zmax => zmax + s * (zmax - zmin),
    depthCoordinates := DepthCoordinates.cartesian,
    timeStep := 1 }

/-- An integrator behaviour that reports host_err = -2 and leaves the
delta untouched. -/
def advectReject : ℚ → Particle → Delta → Int × Delta := fun _ _ d => (-2, d)

/-- baseEnv equipped with the rejecting integrator. -/
def envAdvErr : ModelEnv := { baseEnv with numIntegrator := some advectReject }

/-- A find_host behaviour that always reports a land-boundary crossing. -/
def envLandForever : ModelEnv :=
  { baseEnv with findHost := fun _ _ _ _ _ => (-1, 0) }

/-- baseEnv whose host searches both fail, so seeding places the particle
out of the domain. -/
def envSeedFail : ModelEnv :=
  { baseEnv with findHostLocal := fun _ _ _ => (-1, -1),
                 findHostGlobal := fun _ _ => -1 }

/-- A concrete in-domain particle sitting in element 0 at the origin. -/
def particleAt0 : Particle :=
  { defaultParticle with xpos := 0, ypos := 0, zpos := -1,
                         host_horizontal_elem := 0, in_domain := true }

/-- A concrete land-loop state whose flag is the land value -1. -/
def landTrapState : Int × Int × ℚ × ℚ := (-1, 0, 0, 0)

/-- Concrete x-coordinates for the shephard_interpolation counterexample:
reference point 0 sits at squared distance 10^-40 from the origin (far
below any machine-scale threshold), point 1 at distance 1. -/
def c8xpts : Nat → ℚ := fun i => if i = 0 then 1 / 10 ^ 20 else 1

/-- Concrete y-coordinates for the shephard_interpolation counterexample. -/
def c8ypts : Nat → ℚ := fun _ => 0

/-- Concrete values for the shephard_interpolation counterexample. -/
def c8vals : Nat → ℚ := fun i => if i = 0 then 10 else 0

/-- A machine-scale squared-distance threshold: DBL_EPSILON^2 is about
4.9e-32, so 1e-30 bounds it from above while 10^-40 lies far below it. -/
def epsPosSq : ℚ := 1 / 10 ^ 30

/-- Constant reference-point coordinates at the origin (for the early
return witness). -/
def c8zero : Nat → ℚ := fun _ => 0

/-- A one-element mesh for the Shepard velocity evidence: element 0 has
its centre at the origin, all three nbe entries are land (-1), and the
u/v/w fields equal 1 everywhere in both frames. -/
def c4grid : VelGrid :=
  { xc := fun _ => 0, yc := fun _ => 0, nbe := fun _ _ => -1,
    u_last := fun _ _ => 1, u_next := fun _ _ => 1,
    v_last := fun _ _ => 1, v_next := fun _ _ => 1,
    w_last := fun _ _ => 1, w_next := fun _ _ => 1,
    time_last := 0, time_next := 1 }

/-- A particle in element 0 of c4grid at (1, 0), in the vertical boundary
layer of sigma layer 0. -/
def c4particle : Particle :=
  { defaultParticle with xpos := 1, ypos := 0, zpos := -1,
                         host_horizontal_elem := 0, k_layer := 0,
                         in_vertical_boundary_layer := true, in_domain := true }

/-- The time-interpolated u field of c4grid on layer 0 at time 0. -/
def c4value : Int → ℚ :=
  layerValue (get_linear_fraction_safe 0 c4grid.time_last c4grid.time_next)
    c4grid.u_last c4grid.u_next c4particle.k_layer

/-- Concrete x-coordinates of a unit right triangle. -/
def triX : Fin 3 → ℚ := fun i => if i.val = 1 then 1 else 0

/-- Concrete y-coordinates of a unit right triangle. -/
def triY : Fin 3 → ℚ := fun i => if i.val = 2 then 1 else 0

/-- A trivial mediator behaviour for read_data: any refill produces the
bracket (2, 3). -/
def mediator23 : ℚ → ℚ × ℚ × Unit := fun _ => (2, 3, ())

/-- A concrete forward-running reader state bracketing [0, 1]. -/
def readerFwd : ReaderState Unit :=
  { time_last := 0, time_next := 1, time_direction := 1, frames := () }

/-- A local-search behaviour that fails with flag -1. -/
def lsFail : Particle → Int → Int × Particle := fun p _ => (-1, p)

/-- A tracing behaviour that reports an open-boundary crossing. -/
def trOpen : Particle → Particle → Int × Particle := fun _ p => (-2, p)

/-! ## Theorems -/

/-- Claim C1: for every behaviour of the local search and the
pathline-tracing search and every pair of particles whose old member has a
valid host element, FVCOMDataReader.find_host runs the local barycentric
search from the old host first; it invokes find_host_using_particle_tracing
if and only if the local flag differs from IN_DOMAIN, and the returned flag
is the local flag when that flag is IN_DOMAIN and the tracing flag
otherwise. -/
theorem find_host_two_phase
    (ls : Particle → Int → Int × Particle)
    (tr : Particle → Particle → Int × Particle)
    (pOld pNew : Particle) (hhost : 0 ≤ pOld.host_horizontal_elem) :
    ((find_host_FVCOM ls tr pOld pNew).2.2 = true ↔
      (ls pNew pOld.host_horizontal_elem).1 ≠ IN_DOMAIN) ∧
    ((ls pNew pOld.host_horizontal_elem).1 = IN_DOMAIN →
      (find_host_FVCOM ls tr pOld pNew).1 =
        (ls pNew pOld.host_horizontal_elem).1) ∧
    ((ls pNew pOld.host_horizontal_elem).1 ≠ IN_DOMAIN →
      (find_host_FVCOM ls tr pOld pNew).1 =
        (tr pOld (ls pNew pOld.host_horizontal_elem).2).1) := by
  unfold find_host_FVCOM
  by_cases h : (ls pNew pOld.host_horizontal_elem).1 = IN_DOMAIN <;> simp [h]

/-- Claim C1 witness: a failing local search on a particle with host 0
triggers the tracing fallback and returns its flag. -/
theorem find_host_two_phase_witness :
    0 ≤ particleAt0.host_horizontal_elem ∧
    (((find_host_FVCOM lsFail trOpen particleAt0 defaultParticle).2.2 = true ↔
       (lsFail defaultParticle particleAt0.host_horizontal_elem).1 ≠ IN_DOMAIN) ∧
     ((lsFail defaultParticle particleAt0.host_horizontal_elem).1 = IN_DOMAIN →
       (find_host_FVCOM lsFail trOpen particleAt0 defaultParticle).1 =
         (lsFail defaultParticle particleAt0.host_horizontal_elem).1) ∧
     ((lsFail defaultParticle particleAt0.host_horizontal_elem).1 ≠ IN_DOMAIN →
       (find_host_FVCOM lsFail trOpen particleAt0 defaultParticle).1 =
         (trOpen particleAt0 (lsFail defaultParticle particleAt0.host_horizontal_elem).2).1)) :=
  ⟨by decide, find_host_two_phase lsFail trOpen particleAt0 defaultParticle (by decide)⟩

/-- Claim C2: when the integrator's advect call reports host_err = -2 for
an in-domain particle, FVCOMOPTModel.update sets in_domain to False and
commits nothing else: the result is the input particle with only the
in_domain flag changed. -/
theorem update_advect_reject (env : ModelEnv) (fuel : Nat) (time : ℚ)
    (p : Particle) (advect : ℚ → Particle → Delta → Int × Delta) (d : Delta)
    (hin : p.in_domain = true)
    (hint : env.numIntegrator = some advect)
    (herr : advect time p resetDelta = (-2, d)) :
    updateParticle env fuel time p = StepResult.ok { p with in_domain := false } := by
  unfold updateParticle
  rw [hin, hint]
  simp [herr]

/-- Claim C2 witness: the rejecting integrator flags a concrete in-domain
particle out of the domain with every other field untouched. -/
theorem update_advect_reject_witness :
    (particleAt0.in_domain = true ∧
     envAdvErr.numIntegrator = some advectReject ∧
     advectReject 0 particleAt0 resetDelta = (-2, resetDelta)) ∧
    updateParticle envAdvErr 5 0 particleAt0 =
      StepResult.ok { particleAt0 with in_domain := false } :=
  ⟨⟨rfl, rfl, rfl⟩,
   update_advect_reject envAdvErr 5 0 particleAt0 advectReject resetDelta rfl rfl rfl⟩

/-- Helper for claim C3: under the always-land find_host behaviour the
land-boundary loop state keeps flag -1, so no amount of fuel makes the
loop exit. -/
theorem landLoopFuel_envLandForever (p : Particle) (n : Nat) :
    ∀ s : Int × Int × ℚ × ℚ, s.1 = LAND_BDY_CROSSED →
      landLoopFuel envLandForever p n s = none := by
  induction n with
  | zero =>
    intro s hs
    simp [landLoopFuel, hs]
  | succ n ih =>
    intro s hs
    rw [landLoopFuel, if_neg (by simp [hs])]
    exact ih _ rfl

/-- Helper for claim C3: with no integrator, an in-domain particle and a
find_host behaviour that always reports the land flag, one pass of
FVCOMOPTModel.update ends in the diverging land loop. -/
theorem updateParticle_noFuel (env : ModelEnv) (fuel : Nat) (time : ℚ)
    (p : Particle)
    (hin : p.in_domain = true)
    (hint : env.numIntegrator = none)
    (hloop : ∀ s : Int × Int × ℚ × ℚ, s.1 = LAND_BDY_CROSSED →
      landLoopFuel env p fuel s = none)
    (hflag : ∀ a b c d : ℚ, ∀ e : Int, (env.findHost a b c d e).1 = LAND_BDY_CROSSED) :
    updateParticle env fuel time p = StepResult.noFuel := by
  simp only [updateParticle, updateAfterAdvect, hin, hint, if_true]
  rw [hloop _ (hflag _ _ _ _ _)]

/-- Claim C3 counterexample: the land-boundary loop of
FVCOMOPTModel.update has no iteration cap.  Under a find_host behaviour
that always reports the land flag -1 the loop never exits for any number
of rounds, and update never completes (in particular no snap to the host
centroid happens). -/
theorem land_loop_no_cap_counterexample :
    (¬ ∃ n : Nat,
      (landLoopFuel envLandForever particleAt0 n landTrapState).isSome = true) ∧
    (∀ fuel : Nat,
      updateParticle envLandForever fuel 0 particleAt0 = StepResult.noFuel) := by
  constructor
  · rintro ⟨n, hn⟩
    rw [landLoopFuel_envLandForever particleAt0 n landTrapState rfl] at hn
    exact absurd hn (by simp)
  · intro fuel
    exact updateParticle_noFuel envLandForever fuel 0 particleAt0 rfl rfl
      (fun s hs => landLoopFuel_envLandForever particleAt0 fuel s hs)
      (fun a b c d e => rfl)

/-- Claim C3 amended: the land-boundary loop of FVCOMOPTModel.update
carries no iteration cap and no centroid snap; it simply repeats the
boundary-condition application and host re-search while the flag equals
-1, terminating exactly when some round first produces a different flag.
If round k is the first whose flag is not -1 then for any fuel of at
least k the loop returns that round's state. -/
theorem land_loop_first_exit (env : ModelEnv) (p : Particle)
    (s : Int × Int × ℚ × ℚ) (k n : Nat)
    (hk : ((landStep env p)^[k] s).1 ≠ LAND_BDY_CROSSED)
    (hprev : ∀ j < k, ((landStep env p)^[j] s).1 = LAND_BDY_CROSSED)
    (hn : k ≤ n) :
    landLoopFuel env p n s = some ((landStep env p)^[k] s) := by
  induction k generalizing s n with
  | zero =>
    rw [Function.iterate_zero_apply] at hk ⊢
    cases n with
    | zero => rw [landLoopFuel, if_pos hk]
    | succ m => rw [landLoopFuel, if_pos hk]
  | succ k ih =>
    have h0 : s.1 = LAND_BDY_CROSSED := by
      have := hprev 0 (Nat.succ_pos k)
      rwa [Function.iterate_zero_apply] at this
    cases n with
    | zero => omega
    | succ m =>
      rw [landLoopFuel, if_neg (by simp [h0])]
      rw [Function.iterate_succ_apply]
      exact ih (landStep env p s) m
        (by rwa [← Function.iterate_succ_apply])
        (fun j hj => by
          have := hprev (j + 1) (by omega)
          rwa [Function.iterate_succ_apply] at this)
        (by omega)

/-- Claim C3 amended witness: with a benign find_host the loop exits after
exactly one boundary-condition round. -/
theorem land_loop_first_exit_witness :
    (((landStep baseEnv particleAt0)^[1] landTrapState).1 ≠ LAND_BDY_CROSSED ∧
     (∀ j < 1, ((landStep baseEnv particleAt0)^[j] landTrapState).1 = LAND_BDY_CROSSED) ∧
     1 ≤ 1) ∧
    landLoopFuel baseEnv particleAt0 1 landTrapState =
      some ((landStep baseEnv particleAt0)^[1] landTrapState) :=
  ⟨⟨by decide, by decide, by decide⟩,
   land_loop_first_exit baseEnv particleAt0 landTrapState 1 1
     (by decide) (by decide) (by decide)⟩

/-- Claim C4 evidence: on a host element with no valid neighbour (all nbe
entries -1), a constant u field equal to 1, and the particle at distance 1
from the host centre, _get_velocity_using_shepard_interpolation returns
498751/499501 for the u component, whereas the Shepard average over only
the host centroid (the claim's value) is exactly 1: the three
sentinel-padded entries at (-999, -999) with value -999 contribute
non-zero weight. -/
theorem shepard_velocity_sentinel_bias :
    (get_velocity_shepard c4grid 0 c4particle).1 = 498751 / 499501 ∧
    shepard_interpolation c4particle.xpos c4particle.ypos
      (shepardPointsValid c4grid c4particle.host_horizontal_elem c4value) = 1 ∧
    ((498751 : ℚ) / 499501 ≠ 1) := by
  refine ⟨?_, ?_, by norm_num⟩
  · norm_num [get_velocity_shepard, shepard_interpolation, shepardList,
      shepardPoints, layerValue, linear_interp, get_linear_fraction_safe,
      c4grid, c4particle, c4value, defaultParticle, List.range_succ]
  · norm_num [shepard_interpolation, shepardList, shepardPointsValid,
      layerValue, linear_interp, get_linear_fraction_safe,
      c4grid, c4particle, c4value, defaultParticle, List.range_succ]

/-- Claim C5: for every point and every triangle whose barycentric
determinant is non-zero, the three coordinates produced by
get_barycentric_coords sum exactly to 1 (phi[2] is defined as
1 - phi[0] - phi[1]); exact equality in particular implies the 1e-12
tolerance of the stated invariant. -/
theorem barycentric_sum_one (x y : ℚ) (x_tri y_tri : Fin 3 → ℚ)
    (hdet : baryDet x_tri y_tri ≠ 0) :
    (get_barycentric_coords x y x_tri y_tri).1 +
      (get_barycentric_coords x y x_tri y_tri).2.1 +
      (get_barycentric_coords x y x_tri y_tri).2.2 = 1 := by
  simp only [get_barycentric_coords]
  ring

/-- Claim C5 witness: the barycentric coordinates of (1/3, 1/3) in the
unit right triangle sum to 1. -/
theorem barycentric_sum_one_witness :
    baryDet triX triY ≠ 0 ∧
    (get_barycentric_coords (1/3) (1/3) triX triY).1 +
      (get_barycentric_coords (1/3) (1/3) triX triY).2.1 +
      (get_barycentric_coords (1/3) (1/3) triX triY).2.2 = 1 :=
  ⟨by norm_num [baryDet, triX, triY],
   barycentric_sum_one (1/3) (1/3) triX triY (by norm_num [baryDet, triX, triY])⟩

/-- Helper for claim C6: the refill indicator of read_data is exactly the
source's direction-dependent disjunction on the time fraction. -/
theorem read_data_trigger {F : Type} (mediator : ℚ → ℚ × ℚ × F)
    (s : ReaderState F) (t : ℚ) :
    (read_data mediator s t).2 =
      (if s.time_direction = 1
       then decide (get_linear_fraction t s.time_last s.time_next < 0 ∨
                    1 ≤ get_linear_fraction t s.time_last s.time_next)
       else decide (get_linear_fraction t s.time_last s.time_next ≤ 0 ∨
                    1 < get_linear_fraction t s.time_last s.time_next)) := by
  unfold read_data
  by_cases h1 : s.time_direction = 1 <;> simp [h1] <;> split <;> simp_all

/-- Helper for claim C6: when read_data does not refill, it returns the
reader state unchanged. -/
theorem read_data_unchanged {F : Type} (mediator : ℚ → ℚ × ℚ × F)
    (s : ReaderState F) (t : ℚ)
    (hfalse : (read_data mediator s t).2 = false) :
    (read_data mediator s t).1 = s := by
  unfold read_data at hfalse ⊢
  dsimp only at hfalse ⊢
  by_cases h1 : s.time_direction = 1
  · rw [if_pos h1] at hfalse ⊢
    split at hfalse
    next h => simp at hfalse
    next h => rw [if_neg h]
  · rw [if_neg h1] at hfalse ⊢
    split at hfalse
    next h => simp at hfalse
    next h => rw [if_neg h]

/-- Claim C6: read_data triggers update_reading_frames and re-reads all
time-dependent fields if and only if the fraction
(t - t_last)/(t_next - t_last) lies outside [0, 1) for time_direction +1
and outside (0, 1] for time_direction -1; when no refill triggers, the
reader state (both bracket frames and times) is returned unchanged. -/
theorem read_data_refill_iff {F : Type} (mediator : ℚ → ℚ × ℚ × F)
    (s : ReaderState F) (t : ℚ)
    (hdir : s.time_direction = 1 ∨ s.time_direction = -1) :
    (((read_data mediator s t).2 = true) ↔
      (if s.time_direction = 1
       then ¬ (0 ≤ get_linear_fraction t s.time_last s.time_next ∧
               get_linear_fraction t s.time_last s.time_next < 1)
       else ¬ (0 < get_linear_fraction t s.time_last s.time_next ∧
               get_linear_fraction t s.time_last s.time_next ≤ 1))) ∧
    (((read_data mediator s t).2 = false) → (read_data mediator s t).1 = s) := by
  refine ⟨?_, fun hfalse => read_data_unchanged mediator s t hfalse⟩
  rw [read_data_trigger]
  rcases hdir with h1 | h1
  · rw [h1]
    norm_num [not_and_or, not_le, not_lt]
    constructor
    · intro h hge
      rcases h with h | h
      · linarith
      · exact h
    · intro h
      by_cases hge : 0 ≤ get_linear_fraction t s.time_last s.time_next
      · exact Or.inr (h hge)
      · exact Or.inl (by linarith)
  · rw [h1]
    norm_num [not_and_or, not_le, not_lt]
    constructor
    · intro h hge
      rcases h with h | h
      · linarith
      · exact h
    · intro h
      by_cases hge : 0 < get_linear_fraction t s.time_last s.time_next
      · exact Or.inr (h hge)
      · exact Or.inl (by linarith)

/-- Claim C6 witness: with the bracket [0, 1] loaded and a forward run,
asking for time 5 triggers a refill, and the characterising disjunction
holds. -/
theorem read_data_refill_iff_witness :
    (readerFwd.time_direction = 1 ∨ readerFwd.time_direction = -1) ∧
    ((((read_data mediator23 readerFwd 5).2 = true) ↔
      (if readerFwd.time_direction = 1
       then ¬ (0 ≤ get_linear_fraction 5 readerFwd.time_last readerFwd.time_next ∧
               get_linear_fraction 5 readerFwd.time_last readerFwd.time_next < 1)
       else ¬ (0 < get_linear_fraction 5 readerFwd.time_last readerFwd.time_next ∧
               get_linear_fraction 5 readerFwd.time_last readerFwd.time_next ≤ 1))) ∧
     (((read_data mediator23 readerFwd 5).2 = false) →
       (read_data mediator23 readerFwd 5).1 = readerFwd)) :=
  ⟨Or.inl rfl, read_data_refill_iff mediator23 readerFwd 5 (Or.inl rfl)⟩

/-- Helper for claim C7: the particle of the in-domain seeding branch has
in_domain True just before and after the depth checks (none of setPhi,
seedSetDepth or applyVertGrid touches the flag). -/
theorem seedParticleWithDepth_in_domain (env : ModelEnv) (time : ℚ)
    (group : Int) (x y z_temp : ℚ) (guess : Option Int) :
    (seedParticleWithDepth env time group x y z_temp guess).in_domain = true := by
  unfold seedParticleWithDepth seedSetDepth seedParticleBeforeDepth seedHostParticle setPhi
  cases env.depthCoordinates <;> rfl

/-- Claim C7: in _create_seed, a failed host search yields a particle
with in_domain False and raises nothing; for a found host, a ValueError
outcome occurs exactly when the computed depth is strictly below zmin or
strictly above zmax (the error reporting the offending depth and bound),
and otherwise the particle joins the seed with in_domain True. -/
theorem seed_depth_errors (env : ModelEnv) (time : ℚ) (group : Int)
    (x y z_temp : ℚ) (guess : Option Int) :
    (seedHostSearch env x y guess < 0 →
      createSeedOne env time group x y z_temp guess =
        SeedOutcome.ok (outOfDomainSeed group)) ∧
    (0 ≤ seedHostSearch env x y guess →
      (((createSeedOne env time group x y z_temp guess).isError = true) ↔
        ((seedParticleWithDepth env time group x y z_temp guess).zpos <
            seedZmin env time group x y guess ∨
         seedZmax env time group x y guess <
            (seedParticleWithDepth env time group x y z_temp guess).zpos)) ∧
      ((seedParticleWithDepth env time group x y z_temp guess).zpos <
          seedZmin env time group x y guess →
        createSeedOne env time group x y z_temp guess =
          SeedOutcome.belowFloor
            (seedParticleWithDepth env time group x y z_temp guess).zpos
            (seedZmin env time group x y guess)) ∧
      (seedZmin env time group x y guess ≤
          (seedParticleWithDepth env time group x y z_temp guess).zpos →
        seedZmax env time group x y guess <
          (seedParticleWithDepth env time group x y z_temp guess).zpos →
        createSeedOne env time group x y z_temp guess =
          SeedOutcome.aboveSurface
            (seedParticleWithDepth env time group x y z_temp guess).zpos
            (seedZmax env time group x y guess)) ∧
      (seedZmin env time group x y guess ≤
          (seedParticleWithDepth env time group x y z_temp guess).zpos →
        (seedParticleWithDepth env time group x y z_temp guess).zpos ≤
          seedZmax env time group x y guess →
        ∃ q, createSeedOne env time group x y z_temp guess = SeedOutcome.ok q ∧
          q.in_domain = true)) := by
  constructor
  · intro hfail
    unfold createSeedOne
    rw [if_neg (by omega)]
  · intro hfound
    unfold createSeedOne
    rw [if_pos hfound]
    by_cases hlow : (seedParticleWithDepth env time group x y z_temp guess).zpos <
        seedZmin env time group x y guess
    · simp only [if_pos hlow]
      refine ⟨by simp [SeedOutcome.isError, hlow], fun _ => by trivial, ?_, ?_⟩
      · intro hge _
        exact absurd hlow (not_lt.mpr hge)
      · intro hge _
        exact absurd hlow (not_lt.mpr hge)
    · by_cases hhigh : seedZmax env time group x y guess <
          (seedParticleWithDepth env time group x y z_temp guess).zpos
      · simp only [if_neg hlow, if_pos hhigh]
        refine ⟨by simp [SeedOutcome.isError, hhigh], ?_, fun _ _ => by trivial, ?_⟩
        · intro hl
          exact absurd hl hlow
        · intro _ hle
          exact absurd hhigh (not_lt.mpr hle)
      · simp only [if_neg hlow, if_neg hhigh]
        refine ⟨by simp [SeedOutcome.isError, hlow, hhigh], ?_, ?_, ?_⟩
        · intro hl
          exact absurd hl hlow
        · intro _ hh
          exact absurd hh hhigh
        · intro _ _
          refine ⟨_, rfl, ?_⟩
          simp [applyVertGrid, seedParticleWithDepth_in_domain]

/-- Claim C7 witness: a seed at depth -20 in a water column reaching only
-10 raises the below-floor ValueError carrying the offending depth. -/
theorem seed_depth_errors_witness :
    (0 : Int) ≤ seedHostSearch baseEnv 0 0 none ∧
    createSeedOne baseEnv 0 7 0 0 (-20) none =
      SeedOutcome.belowFloor
        (seedParticleWithDepth baseEnv 0 7 0 0 (-20) none).zpos
        (seedZmin baseEnv 0 7 0 0 none) :=
  ⟨by decide,
   ((seed_depth_errors baseEnv 0 7 0 0 (-20) none).2 (by decide)).2.1
     (by norm_num [seedParticleWithDepth, seedZmin, seedZmax,
       seedParticleBeforeDepth, seedHostParticle, seedSetDepth,
       seedHostSearch, setPhi, baseEnv, defaultParticle])⟩

/-- Claim C8 counterexample: shephard_interpolation does not return
vals[i] for a squared distance that is positive but far below any
machine-scale threshold; with point 0 at squared distance 10^-40 (and a
second point at distance 1) the function still forms the full weighted
average, which differs from vals[0]. -/
theorem shephard_threshold_counterexample :
    refDistSq 0 0 c8xpts c8ypts 0 < epsPosSq ∧
    0 < refDistSq 0 0 c8xpts c8ypts 0 ∧
    shephard_interpolation 0 0 2 c8xpts c8ypts c8vals ≠ c8vals 0 := by
  refine ⟨?_, ?_, ?_⟩ <;>
    norm_num [refDistSq, epsPosSq, shephard_interpolation, shephardLoop,
      c8xpts, c8ypts, c8vals]

/-- Helper for claim C8: if the first vanishing squared distance among the
remaining points occurs at offset j, the loop returns that point's value. -/
theorem shephardLoop_first_zero (x y : ℚ) (xpts ypts vals : Nat → ℚ) :
    ∀ (j n i : Nat) (sum sumw : ℚ), j < n →
      refDistSq x y xpts ypts (i + j) = 0 →
      (∀ m < j, refDistSq x y xpts ypts (i + m) ≠ 0) →
      shephardLoop x y xpts ypts vals n i sum sumw = vals (i + j) := by
  intro j
  induction j with
  | zero =>
    intro n i sum sumw hn hzero _
    cases n with
    | zero => omega
    | succ m =>
      rw [shephardLoop, if_pos (by simpa [refDistSq] using hzero)]
      simp
  | succ j ih =>
    intro n i sum sumw hn hzero hprev
    cases n with
    | zero => omega
    | succ m =>
      have h0 : refDistSq x y xpts ypts i ≠ 0 := by
        have := hprev 0 (Nat.succ_pos j)
        simpa using this
      rw [shephardLoop, if_neg (by simpa [refDistSq] using h0)]
      have hz : refDistSq x y xpts ypts (i + 1 + j) = 0 := by
        have : i + 1 + j = i + (j + 1) := by omega
        rwa [this]
      have hp : ∀ m < j, refDistSq x y xpts ypts (i + 1 + m) ≠ 0 := by
        intro m hm
        have := hprev (m + 1) (by omega)
        have e : i + 1 + m = i + (m + 1) := by omega
        rwa [e]
      have := ih m (i + 1) (sum + 1 / ((x - xpts i) ^ 2 + (y - ypts i) ^ 2))
        (sumw + vals i / ((x - xpts i) ^ 2 + (y - ypts i) ^ 2)) (by omega) hz hp
      rw [this]
      congr 1
      omega

/-- Claim C8 amended: shephard_interpolation returns vals[j] directly
exactly for the first reference point whose squared distance is zero, not
for distances merely below a machine-scale threshold; the counterexample
shows divisions do occur for arbitrarily small positive squared
distances. -/
theorem shephard_zero_distance_return (x y : ℚ) (npts : Nat)
    (xpts ypts vals : Nat → ℚ) (j : Nat)
    (hj : j < npts)
    (hzero : refDistSq x y xpts ypts j = 0)
    (hprev : ∀ m < j, refDistSq x y xpts ypts m ≠ 0) :
    shephard_interpolation x y npts xpts ypts vals = vals j := by
  have := shephardLoop_first_zero x y xpts ypts vals j npts 0 0 0 hj
    (by simpa using hzero) (by simpa using hprev)
  simpa [shephard_interpolation] using this

/-- Claim C8 amended witness: with a single reference point coinciding
with the interpolation point, the value is returned directly. -/
theorem shephard_zero_distance_return_witness :
    (0 < 1 ∧ refDistSq 0 0 c8zero c8zero 0 = 0 ∧
      (∀ m < 0, refDistSq 0 0 c8zero c8zero m ≠ 0)) ∧
    shephard_interpolation 0 0 1 c8zero c8zero c8vals = c8vals 0 :=
  ⟨⟨by decide, by norm_num [refDistSq, c8zero], by omega⟩,
   shephard_zero_distance_return 0 0 1 c8zero c8zero c8vals 0
     (by decide) (by norm_num [refDistSq, c8zero]) (by omega)⟩

/-- Claim C9: a seed tuple whose position lies in no element produces the
sentinel particle (xpos = ypos = zpos = -999, host_horizontal_elem = -999,
in_domain False) rather than one carrying the supplied coordinates, and
update leaves such a particle untouched for every environment, fuel and
time. -/
theorem seed_out_of_domain_defaults (env : ModelEnv) (time : ℚ)
    (group : Int) (x y z_temp : ℚ) (guess : Option Int)
    (hfail : seedHostSearch env x y guess < 0) :
    createSeedOne env time group x y z_temp guess =
      SeedOutcome.ok (outOfDomainSeed group) ∧
    (outOfDomainSeed group).xpos = -999 ∧
    (outOfDomainSeed group).ypos = -999 ∧
    (outOfDomainSeed group).zpos = -999 ∧
    (outOfDomainSeed group).host_horizontal_elem = -999 ∧
    (outOfDomainSeed group).in_domain = false ∧
    ∀ (env2 : ModelEnv) (fuel : Nat) (t : ℚ),
      updateParticle env2 fuel t (outOfDomainSeed group) =
        StepResult.ok (outOfDomainSeed group) := by
  refine ⟨?_, rfl, rfl, rfl, rfl, rfl, ?_⟩
  · unfold createSeedOne
    rw [if_neg (by omega)]
  · intro env2 fuel t
    rfl

/-- Claim C9 witness: the failing search environment produces the sentinel
particle for a seed at the origin, and a concrete update pass returns it
unchanged. -/
theorem seed_out_of_domain_defaults_witness :
    seedHostSearch envSeedFail 0 0 none < 0 ∧
    (createSeedOne envSeedFail 0 7 0 0 (-1) none =
       SeedOutcome.ok (outOfDomainSeed 7) ∧
     (outOfDomainSeed 7).xpos = -999 ∧
     (outOfDomainSeed 7).ypos = -999 ∧
     (outOfDomainSeed 7).zpos = -999 ∧
     (outOfDomainSeed 7).host_horizontal_elem = -999 ∧
     (outOfDomainSeed 7).in_domain = false ∧
     ∀ (env2 : ModelEnv) (fuel : Nat) (t : ℚ),
       updateParticle env2 fuel t (outOfDomainSeed 7) =
         StepResult.ok (outOfDomainSeed 7)) :=
  ⟨by decide, seed_out_of_domain_defaults envSeedFail 0 7 0 0 (-1) none (by decide)⟩

/-- Claim C10: is_wet never reads its time argument: its value agrees at
any two times against the same loaded frames, and equals the function of
the has_is_wet flag, the host element and the two frames' wet_cells
values (identically 1 when has_is_wet is false). -/
theorem is_wet_time_independent (s : WetState) (t1 t2 : ℚ) (p : Particle) :
    is_wet s t1 p = is_wet s t2 p ∧
    is_wet s t1 p =
      (if s.has_is_wet = true ∧
          (s.wet_cells_last p.host_horizontal_elem = 0 ∨
           s.wet_cells_next p.host_horizontal_elem = 0)
       then 0 else 1) := by
  unfold is_wet
  by_cases hw : s.has_is_wet = true <;>
    by_cases hc : s.wet_cells_last p.host_horizontal_elem = 0 ∨
      s.wet_cells_next p.host_horizontal_elem = 0 <;>
    simp [hw, hc]

end PyLag
